import Mathlib

/-!
Verification of the oscilloscope waveform acquisition codec in
`SDS814XHD.py` (class `SDS814XHD`): preamble decoding, waveform block
decoding, the time/voltage scaling step, the timebase table, the channel
registry and the session-level `read_preamble` / `get_waveform_data`
operations.

Byte buffers are modelled as `List Nat` (each entry one byte, values taken
mod 256 where they are assembled).  Python `float` arithmetic is modelled
exactly over `ℚ`; the IEEE-754 bit patterns stored in the preamble are
interpreted by `float32OfBits` / `float64OfBits` into the value type
`FloatVal` (a finite rational, an infinity, or NaN).
-/

set_option maxRecDepth 8000

namespace SDS814XHD

/-- Assemble a list of bytes little-endian into a natural number
(least significant byte first), as `struct.unpack` does on x86. -/
def leNat : List Nat → Nat
  | [] => 0
  | b :: rest => b % 256 + 256 * leNat rest

/-- The byte range `[s, e)` of a buffer, i.e. the Python slice `b[s:e]`. -/
def slice (b : List Nat) (s e : Nat) : List Nat :=
  (b.drop s).take (e - s)

/-- Signed little-endian 32-bit integer of a 4-byte slice
(`struct.unpack('l', ...)` with a 4-byte C long). -/
def int32LE (l : List Nat) : Int :=
  let u := leNat l
  if u < 2 ^ 31 then (u : Int) else (u : Int) - 2 ^ 32

/-- Signed little-endian 16-bit integer of a 2-byte slice
(`struct.unpack('h', ...)`). -/
def int16LE (l : List Nat) : Int :=
  let u := leNat l
  if u < 2 ^ 15 then (u : Int) else (u : Int) - 2 ^ 16

/-- Value of an IEEE-754 floating-point datum: a finite rational, a signed
infinity, or NaN.  Only finite values enter the scaling arithmetic. -/
inductive FloatVal where
  | finite : ℚ → FloatVal
  | posInf : FloatVal
  | negInf : FloatVal
  | nan : FloatVal
deriving DecidableEq

/-- The finite rational carried by a `FloatVal`, if any. -/
def FloatVal.toQOpt : FloatVal → Option ℚ
  | .finite q => some q
  | _ => none

/-- Interpretation of a 32-bit word as an IEEE-754 binary32 value
(`struct.unpack('f', ...)`): sign bit 31, exponent bits 30–23 (bias 127),
mantissa bits 22–0; exponent 255 encodes infinities and NaNs, exponent 0
the subnormals. -/
def float32OfBits (w0 : Nat) : FloatVal :=
  let w : ℕ := w0 % 2 ^ 32
  let s : ℕ := w / 2 ^ 31
  let e : ℕ := (w / 2 ^ 23) % 2 ^ 8
  let m : ℕ := w % 2 ^ 23
  if e = 255 then
    if m = 0 then (if s = 1 then FloatVal.negInf else FloatVal.posInf)
    else FloatVal.nan
  else
    let mag : ℚ :=
      if e = 0 then mkRat m (2 ^ 149)
      else mkRat ((2 ^ 23 + m) * 2 ^ e) (2 ^ 150)
    FloatVal.finite (if s = 1 then -mag else mag)

/-- Interpretation of a 64-bit word as an IEEE-754 binary64 value
(`struct.unpack('d', ...)`): sign bit 63, exponent bits 62–52 (bias 1023),
mantissa bits 51–0; exponent 2047 encodes infinities and NaNs, exponent 0
the subnormals. -/
def float64OfBits (w0 : Nat) : FloatVal :=
  let w : ℕ := w0 % 2 ^ 64
  let s : ℕ := w / 2 ^ 63
  let e : ℕ := (w / 2 ^ 52) % 2 ^ 11
  let m : ℕ := w % 2 ^ 52
  if e = 2047 then
    if m = 0 then (if s = 1 then FloatVal.negInf else FloatVal.posInf)
    else FloatVal.nan
  else
    let mag : ℚ :=
      if e = 0 then mkRat m (2 ^ 1074)
      else mkRat ((2 ^ 52 + m) * 2 ^ e) (2 ^ 1075)
    FloatVal.finite (if s = 1 then -mag else mag)

/-- The seventeen preamble fields extracted by `read_preamble` /
`get_waveform_data` (lines 133–151 and 233–251 of `SDS814XHD.py`).  This
record also serves as the session state: `read_preamble` stores exactly
these fields as instance attributes. -/
structure Preamble where
  num_points : Int
  first_point : Int
  data_interval : Int
  read_frames : Int
  sum_frames : Int
  vertical_gain : FloatVal
  vertical_offset : FloatVal
  code_per_div : FloatVal
  adc_bit : Int
  sequence_frame_idx : Int
  horizontal_interval : FloatVal
  horizontal_offset : FloatVal
  timebase_idx : Int
  vertical_coupling_idx : Int
  probe_attenuation : FloatVal
  bw_limit : Int
  source_channel : Int
deriving DecidableEq

/-- Model of `struct.unpack('l', b[off:off+4])[0]`: the Python slice
yields fewer than 4 bytes (and `unpack` raises `struct.error`) exactly
when `off + 4 > len(b)`. -/
def unpackInt32 (b : List Nat) (off : Nat) : Option Int :=
  if off + 4 ≤ b.length then some (int32LE (slice b off (off + 4))) else none

/-- Model of `struct.unpack('h', b[off:off+2])[0]`; raises exactly when
`off + 2 > len(b)`. -/
def unpackInt16 (b : List Nat) (off : Nat) : Option Int :=
  if off + 2 ≤ b.length then some (int16LE (slice b off (off + 2))) else none

/-- Model of `struct.unpack('f', b[off:off+4])[0]`; raises exactly when
`off + 4 > len(b)`. -/
def unpackFloat32 (b : List Nat) (off : Nat) : Option FloatVal :=
  if off + 4 ≤ b.length then some (float32OfBits (leNat (slice b off (off + 4)))) else none

/-- Model of `struct.unpack('d', b[off:off+8])[0]`; raises exactly when
`off + 8 > len(b)`. -/
def unpackFloat64 (b : List Nat) (off : Nat) : Option FloatVal :=
  if off + 8 ≤ b.length then some (float64OfBits (leNat (slice b off (off + 8)))) else none

/-- Pure preamble decode (PreambleCodec.decode): the field extraction of
`get_waveform_data` lines 233–251, with `n_skip = 11`.  Each `unpack` call
fails (raises in Python) when the buffer is too short for its slice; the
fields are read in source order. -/
def decodePreamble (b : List Nat) : Option Preamble :=
  match unpackInt32 b (11 + 116) with
  | none => none
  | some num_points =>
  match unpackInt32 b (11 + 132) with
  | none => none
  | some first_point =>
  match unpackInt32 b (11 + 136) with
  | none => none
  | some data_interval =>
  match unpackInt32 b (11 + 144) with
  | none => none
  | some read_frames =>
  match unpackInt32 b (11 + 148) with
  | none => none
  | some sum_frames =>
  match unpackFloat32 b (11 + 156) with
  | none => none
  | some vertical_gain =>
  match unpackFloat32 b (11 + 160) with
  | none => none
  | some vertical_offset =>
  match unpackFloat32 b (11 + 164) with
  | none => none
  | some code_per_div =>
  match unpackInt16 b (11 + 172) with
  | none => none
  | some adc_bit =>
  match unpackInt16 b (11 + 174) with
  | none => none
  | some sequence_frame_idx =>
  match unpackFloat32 b (11 + 176) with
  | none => none
  | some horizontal_interval =>
  match unpackFloat64 b (11 + 180) with
  | none => none
  | some horizontal_offset =>
  match unpackInt16 b (11 + 324) with
  | none => none
  | some timebase_idx =>
  match unpackInt16 b (11 + 326) with
  | none => none
  | some vertical_coupling_idx =>
  match unpackFloat32 b (11 + 328) with
  | none => none
  | some probe_attenuation =>
  match unpackInt16 b (11 + 334) with
  | none => none
  | some bw_limit =>
  match unpackInt16 b (11 + 344) with
  | none => none
  | some source_channel =>
  some {
    num_points, first_point, data_interval, read_frames, sum_frames,
    vertical_gain, vertical_offset, code_per_div, adc_bit,
    sequence_frame_idx, horizontal_interval, horizontal_offset,
    timebase_idx, vertical_coupling_idx, probe_attenuation, bw_limit,
    source_channel }

/-- Stateful preamble load (`read_preamble`, lines 123–160): the session's
seventeen attributes are assigned one by one in source order; a
`struct.unpack` failure (buffer too short for the current slice, see
`unpackInt32` etc.) aborts the remaining assignments but keeps the ones
already made, and is surfaced to the caller (the Boolean component is
`false`; only transport errors are caught in the source). -/
def read_preamble (st0 : Preamble) (b : List Nat) : Preamble × Bool :=
  if 11 + 120 ≤ b.length then
  let st := { st0 with num_points := int32LE (slice b (11 + 116) (11 + 120)) }
  if 11 + 136 ≤ b.length then
  let st := { st with first_point := int32LE (slice b (11 + 132) (11 + 136)) }
  if 11 + 140 ≤ b.length then
  let st := { st with data_interval := int32LE (slice b (11 + 136) (11 + 140)) }
  if 11 + 148 ≤ b.length then
  let st := { st with read_frames := int32LE (slice b (11 + 144) (11 + 148)) }
  if 11 + 152 ≤ b.length then
  let st := { st with sum_frames := int32LE (slice b (11 + 148) (11 + 152)) }
  if 11 + 160 ≤ b.length then
  let st := { st with vertical_gain := float32OfBits (leNat (slice b (11 + 156) (11 + 160))) }
  if 11 + 164 ≤ b.length then
  let st := { st with vertical_offset := float32OfBits (leNat (slice b (11 + 160) (11 + 164))) }
  if 11 + 168 ≤ b.length then
  let st := { st with code_per_div := float32OfBits (leNat (slice b (11 + 164) (11 + 168))) }
  if 11 + 174 ≤ b.length then
  let st := { st with adc_bit := int16LE (slice b (11 + 172) (11 + 174)) }
  if 11 + 176 ≤ b.length then
  let st := { st with sequence_frame_idx := int16LE (slice b (11 + 174) (11 + 176)) }
  if 11 + 180 ≤ b.length then
  let st := { st with horizontal_interval := float32OfBits (leNat (slice b (11 + 176) (11 + 180))) }
  if 11 + 188 ≤ b.length then
  let st := { st with horizontal_offset := float64OfBits (leNat (slice b (11 + 180) (11 + 188))) }
  if 11 + 326 ≤ b.length then
  let st := { st with timebase_idx := int16LE (slice b (11 + 324) (11 + 326)) }
  if 11 + 328 ≤ b.length then
  let st := { st with vertical_coupling_idx := int16LE (slice b (11 + 326) (11 + 328)) }
  if 11 + 332 ≤ b.length then
  let st := { st with probe_attenuation := float32OfBits (leNat (slice b (11 + 328) (11 + 332))) }
  if 11 + 336 ≤ b.length then
  let st := { st with bw_limit := int16LE (slice b (11 + 334) (11 + 336)) }
  if 11 + 346 ≤ b.length then
  ({ st with source_channel := int16LE (slice b (11 + 344) (11 + 346)) }, true)
  else (st, false)
  else (st, false)
  else (st, false)
  else (st, false)
  else (st, false)
  else (st, false)
  else (st, false)
  else (st, false)
  else (st, false)
  else (st, false)
  else (st, false)
  else (st, false)
  else (st, false)
  else (st, false)
  else (st, false)
  else (st, false)
  else (st0, false)

/-- The class constant `VALID_CHANNELS` (line 10). -/
def VALID_CHANNELS : List String := ["C1", "C2", "C3", "C4", "F1", "F2", "F3", "F4"]

/-- Membership test `is_valid_channel` (lines 66–73). -/
def is_valid_channel (channel : String) : Bool :=
  VALID_CHANNELS.contains channel

/-- Model of `set_channel` (lines 88–109) as a resolution on channel names.
`channel` is the requested name, `current` the instrument's currently
active channel (the transport collaborator's answer to `WAV:SOUR?`).
The first component is the active channel after the call, the second
records whether an invalid-request diagnostic was emitted.  In the source
the valid branch has no action at all — no selection command is ever sent,
so the active channel stays `current` in both branches; the invalid branch
logs a warning and falls back to `current`. -/
def set_channel (channel current : String) : String × Bool :=
  if is_valid_channel channel then (current, false) else (current, true)

/-- The class constant `TIMEBASE_LIST` (lines 13–17), sec/div values as
exact rationals. -/
def TIMEBASE_LIST : List ℚ :=
  [200 / 10 ^ 12, 500 / 10 ^ 12, 1 / 10 ^ 9,
   2 / 10 ^ 9, 5 / 10 ^ 9, 10 / 10 ^ 9, 20 / 10 ^ 9, 50 / 10 ^ 9,
   100 / 10 ^ 9, 200 / 10 ^ 9, 500 / 10 ^ 9,
   1 / 10 ^ 6, 2 / 10 ^ 6, 5 / 10 ^ 6, 10 / 10 ^ 6, 20 / 10 ^ 6,
   50 / 10 ^ 6, 100 / 10 ^ 6, 200 / 10 ^ 6, 500 / 10 ^ 6,
   1 / 10 ^ 3, 2 / 10 ^ 3, 5 / 10 ^ 3, 10 / 10 ^ 3, 20 / 10 ^ 3,
   50 / 10 ^ 3, 100 / 10 ^ 3, 200 / 10 ^ 3, 500 / 10 ^ 3,
   1, 2, 5, 10, 20, 50, 100, 200, 500, 1000]

/-- Model of the Python list subscript `TIMEBASE_LIST[i]` (line 261) for an
arbitrary integer index: indices `0 ≤ i < 39` select from the front,
negative indices `-39 ≤ i < 0` wrap from the end (Python semantics), and
anything else raises `IndexError`. -/
def lookupTimebase (i : Int) : Option ℚ :=
  if 0 ≤ i then
    if i < 39 then TIMEBASE_LIST.get? i.toNat else none
  else
    if -39 ≤ i then TIMEBASE_LIST.get? (i + 39).toNat else none

/-- ASCII whitespace bytes stripped by Python's `bytes.rstrip()`. -/
def isSpaceByte (c : Nat) : Bool :=
  c = 9 || c = 10 || c = 11 || c = 12 || c = 13 || c = 32

/-- Python `bytes.rstrip()`: drop trailing whitespace bytes
(`raw_data = ... .read_raw().rstrip()`, line 214). -/
def rstripBytes (b : List Nat) : List Nat :=
  (b.reverse.dropWhile isSpaceByte).reverse

/-- Model of `np.frombuffer(payload, dtype=np.int16)` on the payload bytes:
consecutive pairs decoded as signed 16-bit little-endian integers; an odd
number of bytes raises `ValueError` (caught in the source and turned into
a failed call). -/
def decodeSamples : List Nat → Option (List Int)
  | [] => some []
  | [_] => none
  | b0 :: b1 :: rest => (decodeSamples rest).map (fun l => int16LE [b0, b1] :: l)

/-- Waveform block decode (WaveformBlockCodec.decode): lines 214 and
263–269.  The buffer is first `rstrip`ped; `struct.unpack('c',
raw_data[1:2])` needs at least 2 bytes; `int(...)` of that byte succeeds
only for an ASCII decimal digit `D`; `np.frombuffer(..., offset=D+2,
dtype=np.int16)` requires the offset to lie within the buffer and the
remaining byte count to be even. -/
def decodeWaveformBlock (buf : List Nat) : Option (List Int) :=
  let s := rstripBytes buf
  if h : 2 ≤ s.length then
    let c := s.get ⟨1, by omega⟩
    if 48 ≤ c ∧ c ≤ 57 then
      let d := c - 48
      if d + 2 ≤ s.length then decodeSamples (s.drop (d + 2)) else none
    else none
  else none

/-- Per-sample voltage scaling (line 275):
`voltage = raw * (vertical_gain / code_per_div) - vertical_offset`. -/
def voltageData (vg cpd voff : ℚ) (raw : List Int) : List ℚ :=
  raw.map (fun r : Int => (r : ℚ) * (vg / cpd) - voff)

/-- Time axis (lines 273 and 276): `horiz_grid_num = 10` and
`time = horizontal_offset - 0.5 * horiz_grid_num * timebase +
np.arange(num_points) * horizontal_interval`; `np.arange` of a negative
count is empty, hence `Int.toNat`. -/
def timeData (hoff tb hint : ℚ) (num_points : Int) : List ℚ :=
  (List.range num_points.toNat).map
    (fun i : Nat => hoff - (1 / 2) * 10 * tb + (i : ℚ) * hint)

/-- Scaling step (ScalingEngine.scale, lines 272–276).  The only failure is
the Python `ZeroDivisionError` raised by `vertical_gain / code_per_div`
when `code_per_div` is (plus or minus) zero; that exception is not caught
in the source and aborts the call.  An empty raw block is not an error:
it simply yields an empty voltage list. -/
def scale (vg cpd voff hoff tb hint : ℚ) (num_points : Int) (raw : List Int) :
    Option (List ℚ × List ℚ) :=
  if cpd = 0 then none
  else some (timeData hoff tb hint num_points, voltageData vg cpd voff raw)

/-- Session-level fetch (`get_waveform_data`, lines 193–286) on the two
byte buffers handed over by the transport.  The method reads no cached
preamble attribute and writes none: every scaling parameter is a local
decoded inside the call, so the session state passes through unchanged.
In the source the sample buffer is read (and `rstrip`ped) before the
preamble is decoded; all steps are pure, so decoding them in source
order of use yields the same result.  Non-finite float parameters are
outside this rational model (`FloatVal.toQOpt`). -/
def get_waveform_data (st : Preamble) (preBytes dataBytes : List Nat) :
    Preamble × Option (List ℚ × List ℚ) :=
  (st,
    match decodePreamble preBytes with
    | none => none
    | some p =>
    match lookupTimebase p.timebase_idx with
    | none => none
    | some tb =>
    match decodeWaveformBlock dataBytes with
    | none => none
    | some raw =>
    match p.vertical_gain.toQOpt with
    | none => none
    | some vg =>
    match p.vertical_offset.toQOpt with
    | none => none
    | some voff =>
    match p.code_per_div.toQOpt with
    | none => none
    | some cpd =>
    match p.horizontal_interval.toQOpt with
    | none => none
    | some hint =>
    match p.horizontal_offset.toQOpt with
    | none => none
    | some hoff =>
    scale vg cpd voff hoff tb hint p.num_points raw)

/-- Preamble record with every field zero; used as a concrete session
state in witnesses. -/
def zeroPreamble : Preamble :=
  { num_points := 0, first_point := 0, data_interval := 0, read_frames := 0,
    sum_frames := 0, vertical_gain := .finite 0, vertical_offset := .finite 0,
    code_per_div := .finite 0, adc_bit := 0, sequence_frame_idx := 0,
    horizontal_interval := .finite 0, horizontal_offset := .finite 0,
    timebase_idx := 0, vertical_coupling_idx := 0,
    probe_attenuation := .finite 0, bw_limit := 0, source_channel := 0 }

/-- A 357-byte preamble buffer: all zero except bytes `[175,179)`
(field `code_per_div`, range `[164,168)` past the 11-byte skip), which
hold the little-endian IEEE-754 bits of `1.0f`. -/
def demoPreBuf : List Nat :=
  List.replicate 175 0 ++ [0, 0, 128, 63] ++ List.replicate 178 0

/-- The preamble decoded from `demoPreBuf`: all fields zero except
`code_per_div = 1`. -/
def demoPre : Preamble := { zeroPreamble with code_per_div := .finite 1 }

/-- A minimal waveform block: marker byte, digit `0`, empty payload. -/
def demoRawBuf : List Nat := [35, 48]


set_option maxHeartbeats 1000000 in
theorem decodePreamble_eq (b : List Nat) :
    decodePreamble b =
      if 11 + 346 ≤ b.length then
        some {
          num_points := int32LE (slice b (11 + 116) (11 + 120)),
          first_point := int32LE (slice b (11 + 132) (11 + 136)),
          data_interval := int32LE (slice b (11 + 136) (11 + 140)),
          read_frames := int32LE (slice b (11 + 144) (11 + 148)),
          sum_frames := int32LE (slice b (11 + 148) (11 + 152)),
          vertical_gain := float32OfBits (leNat (slice b (11 + 156) (11 + 160))),
          vertical_offset := float32OfBits (leNat (slice b (11 + 160) (11 + 164))),
          code_per_div := float32OfBits (leNat (slice b (11 + 164) (11 + 168))),
          adc_bit := int16LE (slice b (11 + 172) (11 + 174)),
          sequence_frame_idx := int16LE (slice b (11 + 174) (11 + 176)),
          horizontal_interval := float32OfBits (leNat (slice b (11 + 176) (11 + 180))),
          horizontal_offset := float64OfBits (leNat (slice b (11 + 180) (11 + 188))),
          timebase_idx := int16LE (slice b (11 + 324) (11 + 326)),
          vertical_coupling_idx := int16LE (slice b (11 + 326) (11 + 328)),
          probe_attenuation := float32OfBits (leNat (slice b (11 + 328) (11 + 332))),
          bw_limit := int16LE (slice b (11 + 334) (11 + 336)),
          source_channel := int16LE (slice b (11 + 344) (11 + 346)) }
      else none := by
  by_cases hL : 11 + 346 ≤ b.length
  · have h1 : 11 + 116 + 4 ≤ b.length := by omega
    have h2 : 11 + 132 + 4 ≤ b.length := by omega
    have h3 : 11 + 136 + 4 ≤ b.length := by omega
    have h4 : 11 + 144 + 4 ≤ b.length := by omega
    have h5 : 11 + 148 + 4 ≤ b.length := by omega
    have h6 : 11 + 156 + 4 ≤ b.length := by omega
    have h7 : 11 + 160 + 4 ≤ b.length := by omega
    have h8 : 11 + 164 + 4 ≤ b.length := by omega
    have h9 : 11 + 172 + 2 ≤ b.length := by omega
    have h10 : 11 + 174 + 2 ≤ b.length := by omega
    have h11 : 11 + 176 + 4 ≤ b.length := by omega
    have h12 : 11 + 180 + 8 ≤ b.length := by omega
    have h13 : 11 + 324 + 2 ≤ b.length := by omega
    have h14 : 11 + 326 + 2 ≤ b.length := by omega
    have h15 : 11 + 328 + 4 ≤ b.length := by omega
    have h16 : 11 + 334 + 2 ≤ b.length := by omega
    have h17 : 11 + 344 + 2 ≤ b.length := by omega
    rw [if_pos hL]
    simp only [decodePreamble, unpackInt32, unpackInt16, unpackFloat32, unpackFloat64]
    rw [if_pos h1, if_pos h2, if_pos h3, if_pos h4, if_pos h5, if_pos h6, if_pos h7,
      if_pos h8, if_pos h9, if_pos h10, if_pos h11, if_pos h12, if_pos h13, if_pos h14,
      if_pos h15, if_pos h16, if_pos h17]
  · rw [if_neg hL]
    simp only [decodePreamble, unpackInt32, unpackInt16, unpackFloat32, unpackFloat64]
    by_cases c1 : 11 + 116 + 4 ≤ b.length
    case neg => rw [if_neg c1]
    rw [if_pos c1]
    by_cases c2 : 11 + 132 + 4 ≤ b.length
    case neg => rw [if_neg c2]
    rw [if_pos c2]
    by_cases c3 : 11 + 136 + 4 ≤ b.length
    case neg => rw [if_neg c3]
    rw [if_pos c3]
    by_cases c4 : 11 + 144 + 4 ≤ b.length
    case neg => rw [if_neg c4]
    rw [if_pos c4]
    by_cases c5 : 11 + 148 + 4 ≤ b.length
    case neg => rw [if_neg c5]
    rw [if_pos c5]
    by_cases c6 : 11 + 156 + 4 ≤ b.length
    case neg => rw [if_neg c6]
    rw [if_pos c6]
    by_cases c7 : 11 + 160 + 4 ≤ b.length
    case neg => rw [if_neg c7]
    rw [if_pos c7]
    by_cases c8 : 11 + 164 + 4 ≤ b.length
    case neg => rw [if_neg c8]
    rw [if_pos c8]
    by_cases c9 : 11 + 172 + 2 ≤ b.length
    case neg => rw [if_neg c9]
    rw [if_pos c9]
    by_cases c10 : 11 + 174 + 2 ≤ b.length
    case neg => rw [if_neg c10]
    rw [if_pos c10]
    by_cases c11 : 11 + 176 + 4 ≤ b.length
    case neg => rw [if_neg c11]
    rw [if_pos c11]
    by_cases c12 : 11 + 180 + 8 ≤ b.length
    case neg => rw [if_neg c12]
    rw [if_pos c12]
    by_cases c13 : 11 + 324 + 2 ≤ b.length
    case neg => rw [if_neg c13]
    rw [if_pos c13]
    by_cases c14 : 11 + 326 + 2 ≤ b.length
    case neg => rw [if_neg c14]
    rw [if_pos c14]
    by_cases c15 : 11 + 328 + 4 ≤ b.length
    case neg => rw [if_neg c15]
    rw [if_pos c15]
    by_cases c16 : 11 + 334 + 2 ≤ b.length
    case neg => rw [if_neg c16]
    rw [if_pos c16]
    have c17 : ¬(11 + 344 + 2 ≤ b.length) := by omega
    rw [if_neg c17]

/-- Claim C1: every buffer accepted by the preamble decoder yields its 17
fields by reading exactly the listed byte ranges relative to the 11-byte
skip, each decoded with the listed little-endian encoding (signed 32-bit,
signed 16-bit, IEEE-754 binary32 or binary64). -/
theorem preamble_field_layout (b : List Nat) (p : Preamble)
    (h : decodePreamble b = some p) :
    p.num_points = int32LE (slice b (11 + 116) (11 + 120)) ∧
    p.first_point = int32LE (slice b (11 + 132) (11 + 136)) ∧
    p.data_interval = int32LE (slice b (11 + 136) (11 + 140)) ∧
    p.read_frames = int32LE (slice b (11 + 144) (11 + 148)) ∧
    p.sum_frames = int32LE (slice b (11 + 148) (11 + 152)) ∧
    p.vertical_gain = float32OfBits (leNat (slice b (11 + 156) (11 + 160))) ∧
    p.vertical_offset = float32OfBits (leNat (slice b (11 + 160) (11 + 164))) ∧
    p.code_per_div = float32OfBits (leNat (slice b (11 + 164) (11 + 168))) ∧
    p.horizontal_interval = float32OfBits (leNat (slice b (11 + 176) (11 + 180))) ∧
    p.probe_attenuation = float32OfBits (leNat (slice b (11 + 328) (11 + 332))) ∧
    p.horizontal_offset = float64OfBits (leNat (slice b (11 + 180) (11 + 188))) ∧
    p.adc_bit = int16LE (slice b (11 + 172) (11 + 174)) ∧
    p.sequence_frame_idx = int16LE (slice b (11 + 174) (11 + 176)) ∧
    p.timebase_idx = int16LE (slice b (11 + 324) (11 + 326)) ∧
    p.vertical_coupling_idx = int16LE (slice b (11 + 326) (11 + 328)) ∧
    p.bw_limit = int16LE (slice b (11 + 334) (11 + 336)) ∧
    p.source_channel = int16LE (slice b (11 + 344) (11 + 346)) := by
  rw [decodePreamble_eq] at h
  split_ifs at h
  injection h with h
  subst h
  exact ⟨rfl, rfl, rfl, rfl, rfl, rfl, rfl, rfl, rfl, rfl, rfl, rfl, rfl, rfl,
    rfl, rfl, rfl⟩

/-- Witness for claim C1 on the concrete 357-byte buffer `demoPreBuf`,
which decodes to `demoPre`. -/
theorem preamble_field_layout_witness :
    demoPre.num_points = int32LE (slice demoPreBuf (11 + 116) (11 + 120)) ∧
    demoPre.first_point = int32LE (slice demoPreBuf (11 + 132) (11 + 136)) ∧
    demoPre.data_interval = int32LE (slice demoPreBuf (11 + 136) (11 + 140)) ∧
    demoPre.read_frames = int32LE (slice demoPreBuf (11 + 144) (11 + 148)) ∧
    demoPre.sum_frames = int32LE (slice demoPreBuf (11 + 148) (11 + 152)) ∧
    demoPre.vertical_gain = float32OfBits (leNat (slice demoPreBuf (11 + 156) (11 + 160))) ∧
    demoPre.vertical_offset = float32OfBits (leNat (slice demoPreBuf (11 + 160) (11 + 164))) ∧
    demoPre.code_per_div = float32OfBits (leNat (slice demoPreBuf (11 + 164) (11 + 168))) ∧
    demoPre.horizontal_interval = float32OfBits (leNat (slice demoPreBuf (11 + 176) (11 + 180))) ∧
    demoPre.probe_attenuation = float32OfBits (leNat (slice demoPreBuf (11 + 328) (11 + 332))) ∧
    demoPre.horizontal_offset = float64OfBits (leNat (slice demoPreBuf (11 + 180) (11 + 188))) ∧
    demoPre.adc_bit = int16LE (slice demoPreBuf (11 + 172) (11 + 174)) ∧
    demoPre.sequence_frame_idx = int16LE (slice demoPreBuf (11 + 174) (11 + 176)) ∧
    demoPre.timebase_idx = int16LE (slice demoPreBuf (11 + 324) (11 + 326)) ∧
    demoPre.vertical_coupling_idx = int16LE (slice demoPreBuf (11 + 326) (11 + 328)) ∧
    demoPre.bw_limit = int16LE (slice demoPreBuf (11 + 334) (11 + 336)) ∧
    demoPre.source_channel = int16LE (slice demoPreBuf (11 + 344) (11 + 346)) :=
  preamble_field_layout demoPreBuf demoPre (by decide)

/-- Counterexample to claim C4: the claim asserts a 356-byte buffer decodes
successfully, but the decoder needs offset `11 + 345` to exist with two
bytes, i.e. at least `11 + 346 = 357` bytes, so a 356-byte buffer fails. -/
theorem preamble_356_fails : decodePreamble (List.replicate 356 0) = none := by
  decide

/-- Claim C4 (amended): the preamble decode fails exactly when the buffer
is shorter than `11 + 346 = 357` bytes; a 357-byte buffer decodes
successfully for all fields up through `source_channel`, while 356- and
354-byte buffers fail. -/
theorem preamble_min_length (b : List Nat) :
    ((decodePreamble b).isSome = true ↔ 11 + 346 ≤ b.length) ∧
    (decodePreamble (List.replicate 357 0)).isSome = true ∧
    decodePreamble (List.replicate 356 0) = none ∧
    decodePreamble (List.replicate 354 0) = none := by
  refine ⟨?_, by decide, by decide, by decide⟩
  rw [decodePreamble_eq]
  split_ifs with hL <;> simp [hL]

/-- Counterexample to claim C7: the claim asserts `TimebaseTable.lookup`
fails for every index outside `[0,38]`, including `-1`; but Python list
indexing wraps negative indices, so index `-1` yields the last entry,
1000 seconds, with no error. -/
theorem timebase_neg_one : lookupTimebase (-1) = some 1000 := by decide

/-- Claim C7 (amended): `lookup(i)` succeeds for every `i ∈ [0,38]`,
returning the i-th element of the fixed 39-value sequence running from
200e-12 to 1000 seconds, and fails with `IndexOutOfRange` for `i ≥ 39`
and for `i < -39`; for `-39 ≤ i < 0` it does not fail but returns the
element at position `39 + i` (Python negative indexing), in particular
`lookup(-1) = 1000`. -/
theorem timebase_bounds :
    TIMEBASE_LIST.length = 39 ∧
    TIMEBASE_LIST.get? 0 = some (200 / 10 ^ 12) ∧
    TIMEBASE_LIST.get? 38 = some 1000 ∧
    (∀ i : Int, 0 ≤ i → i < 39 →
      lookupTimebase i = TIMEBASE_LIST.get? i.toNat ∧ lookupTimebase i ≠ none) ∧
    (∀ i : Int, 39 ≤ i → lookupTimebase i = none) ∧
    (∀ i : Int, i < -39 → lookupTimebase i = none) ∧
    (∀ i : Int, -39 ≤ i → i < 0 →
      lookupTimebase i = TIMEBASE_LIST.get? (i + 39).toNat ∧ lookupTimebase i ≠ none) ∧
    lookupTimebase 39 = none ∧
    lookupTimebase (-1) = some 1000 := by
  refine ⟨rfl, rfl, rfl, ?_, ?_, ?_, ?_, by decide, by decide⟩
  · intro i h0 h39
    have hiN : i.toNat < 39 := by omega
    constructor
    · simp [lookupTimebase, h0, h39]
    · simp only [lookupTimebase, if_pos h0, if_pos h39]
      intro hn
      rw [List.get?_eq_none] at hn
      have : TIMEBASE_LIST.length = 39 := rfl
      omega
  · intro i h
    have h0 : 0 ≤ i := by omega
    have h39 : ¬(i < 39) := by omega
    simp [lookupTimebase, h0, h39]
  · intro i h
    have h0 : ¬(0 ≤ i) := by omega
    have h39 : ¬(-39 ≤ i) := by omega
    simp [lookupTimebase, h0, h39]
  · intro i hlo hhi
    have h0 : ¬(0 ≤ i) := by omega
    have hiN : (i + 39).toNat < 39 := by omega
    constructor
    · simp [lookupTimebase, h0, hlo]
    · simp only [lookupTimebase, if_neg h0, if_pos hlo]
      intro hn
      rw [List.get?_eq_none] at hn
      have : TIMEBASE_LIST.length = 39 := rfl
      omega

/-- Witness for claim C7's amended theorem at the concrete indices 11
(in range), 45 and -45 (out of range) and -5 (negative wrap). -/
theorem timebase_bounds_witness :
    (lookupTimebase 11 = TIMEBASE_LIST.get? (11 : Int).toNat ∧ lookupTimebase 11 ≠ none) ∧
    lookupTimebase 45 = none ∧
    lookupTimebase (-45) = none ∧
    (lookupTimebase (-5) = TIMEBASE_LIST.get? ((-5 : Int) + 39).toNat ∧
      lookupTimebase (-5) ≠ none) :=
  ⟨timebase_bounds.2.2.2.1 11 (by decide) (by decide),
   timebase_bounds.2.2.2.2.1 45 (by decide),
   timebase_bounds.2.2.2.2.2.1 (-45) (by decide),
   timebase_bounds.2.2.2.2.2.2.1 (-5) (by decide) (by decide)⟩

/-- Claim C8 (code bug): the source's own docstring says a valid requested
name is set as the current channel, but the valid branch of `set_channel`
performs no action at all — no selection command is sent — so resolving
the valid name C3 with current channel C2 leaves C2 active, while the
claim (and docstring) say C3 is selected.  The invalid-name fallback
behaves as claimed: C9 leaves C2 active with a diagnostic. -/
theorem set_channel_no_select :
    set_channel "C3" "C2" = ("C2", false) ∧
    set_channel "C9" "C2" = ("C2", true) ∧
    is_valid_channel "C3" = true ∧
    is_valid_channel "C9" = false := by decide

/-- Claim C2: whenever the scaling step produces output, each output
voltage is `raw[i] * (vertical_gain / code_per_div) - vertical_offset`;
in particular with gain 1, 100 codes per division and offset 1/2, the raw
code 200 scales to 3/2. -/
theorem voltage_scaling (vg cpd voff hoff tb hint : ℚ) (n : Int) (raw : List Int)
    (t v : List ℚ) (h : scale vg cpd voff hoff tb hint n raw = some (t, v)) :
    v.length = raw.length ∧
    (∀ i r, raw.get? i = some r → v.get? i = some ((r : ℚ) * (vg / cpd) - voff)) ∧
    voltageData 1 100 (1 / 2) [200] = [3 / 2] := by
  unfold scale at h
  split_ifs at h
  injection h with h
  injection h with ht hv
  subst hv
  refine ⟨by simp only [voltageData, List.length_map], ?_, ?_⟩
  · intro i r hr
    simp only [voltageData, List.get?_map, hr]
    rfl
  · norm_num [voltageData]

/-- Witness for claim C2 at gain 1, 100 codes per division, offset 1/2
and the single raw sample 200. -/
theorem voltage_scaling_witness :
    ([] : List ℚ).length = ([] : List Int).length ∧
    (∀ i r, ([] : List Int).get? i = some r →
      ([] : List ℚ).get? i = some ((r : ℚ) * ((1 : ℚ) / 100) - 1 / 2)) ∧
    voltageData 1 100 (1 / 2) [200] = [3 / 2] :=
  voltage_scaling 1 100 (1 / 2) 0 0 0 0 [] [] [] (by decide)

/-- Counterexample to claim C6: the claim asserts the scaling step fails
whenever the raw sample block is empty; but with a nonzero
`code_per_div` and an empty block the code succeeds, producing an empty
voltage array (here also an empty time axis, as `num_points = 0`). -/
theorem scale_empty_raw : scale 1 100 (1 / 2) 0 (1 / 10 ^ 6) 1 0 [] = some ([], []) := by
  decide

/-- Claim C6 (amended): the scaling step fails exactly when
`code_per_div = 0` — the division `vertical_gain / code_per_div` raises
and is never silent — while an empty raw sample block is not an error
and simply yields an empty voltage sequence. -/
theorem scale_fails_iff_zero_divisor (vg cpd voff hoff tb hint : ℚ) (n : Int)
    (raw : List Int) :
    (scale vg cpd voff hoff tb hint n raw = none ↔ cpd = 0) ∧
    scale vg cpd voff hoff tb hint n [] =
      (if cpd = 0 then none else some (timeData hoff tb hint n, [])) := by
  constructor
  · unfold scale
    split_ifs with hc <;> simp [hc]
  · unfold scale
    split_ifs <;> simp [voltageData]

/-- Pair decoding invariant: a successful `decodeSamples` yields exactly
half as many samples as payload bytes, each sample being the signed
16-bit little-endian value of its byte pair. -/
theorem decodeSamples_spec : ∀ (l : List Nat) (out : List Int),
    decodeSamples l = some out →
    2 * out.length = l.length ∧
    ∀ i b0 b1, l.get? (2 * i) = some b0 → l.get? (2 * i + 1) = some b1 →
      out.get? i = some (int16LE [b0, b1])
  | [], out, h => by
    simp only [decodeSamples, Option.some.injEq] at h
    subst h
    exact ⟨rfl, by intro i b0 b1 h0 _; simp at h0⟩
  | [b], out, h => by
    simp [decodeSamples] at h
  | b0 :: b1 :: rest, out, h => by
    simp only [decodeSamples] at h
    cases hrec : decodeSamples rest with
    | none => rw [hrec] at h; simp at h
    | some tail =>
      rw [hrec] at h
      simp only [Option.map_some', Option.some.injEq] at h
      obtain ⟨hlen, hget⟩ := decodeSamples_spec rest tail hrec
      subst h
      refine ⟨by simp only [List.length_cons]; omega, ?_⟩
      intro i c0 c1 h0 h1
      cases i with
      | zero =>
        simp only [Nat.mul_zero, List.get?_cons_zero, Option.some.injEq] at h0
        simp only [Nat.mul_zero, Nat.zero_add, List.get?_cons_succ,
          List.get?_cons_zero, Option.some.injEq] at h1
        subst h0; subst h1
        rfl
      | succ j =>
        have e0 : 2 * (j + 1) = 2 * j + 1 + 1 := by omega
        rw [e0, List.get?_cons_succ, List.get?_cons_succ] at h0
        have e1 : 2 * (j + 1) + 1 = (2 * j + 1) + 1 + 1 := by omega
        rw [e1, List.get?_cons_succ, List.get?_cons_succ] at h1
        simpa using hget j c0 c1 h0 h1

/-- A payload with an odd number of bytes never decodes: the trailing
byte has no partner (`np.frombuffer` raises `ValueError`). -/
theorem decodeSamples_odd : ∀ l : List Nat, l.length % 2 = 1 → decodeSamples l = none
  | [], h => by simp at h
  | [_], _ => rfl
  | b0 :: b1 :: rest, h => by
    have hr : rest.length % 2 = 1 := by
      simp only [List.length_cons] at h; omega
    simp only [decodeSamples, decodeSamples_odd rest hr]
    rfl

/-- Claim C5: a successful waveform-block decode reads byte 1 (after
stripping the trailing terminator) as an ASCII decimal digit `D = c - 48`,
takes the payload from byte offset `D + 2` to the end, yields
payload-byte-length / 2 samples, each the signed 16-bit little-endian
value of its byte pair; an empty buffer fails, and an odd payload byte
length fails. -/
theorem waveform_block_decode :
    (∀ buf out, decodeWaveformBlock buf = some out →
      ∃ c, (rstripBytes buf).get? 1 = some c ∧ 48 ≤ c ∧ c ≤ 57 ∧
        c - 48 + 2 ≤ (rstripBytes buf).length ∧
        2 * out.length = (rstripBytes buf).length - (c - 48 + 2) ∧
        (∀ i b0 b1,
          ((rstripBytes buf).drop (c - 48 + 2)).get? (2 * i) = some b0 →
          ((rstripBytes buf).drop (c - 48 + 2)).get? (2 * i + 1) = some b1 →
          out.get? i = some (int16LE [b0, b1]))) ∧
    decodeWaveformBlock [] = none ∧
    (∀ buf c, (rstripBytes buf).get? 1 = some c → 48 ≤ c → c ≤ 57 →
      ((rstripBytes buf).length - (c - 48 + 2)) % 2 = 1 →
      decodeWaveformBlock buf = none) := by
  refine ⟨?_, rfl, ?_⟩
  · intro buf out h
    simp only [decodeWaveformBlock] at h
    split_ifs at h with h2 hc hd
    obtain ⟨hlen, hpairs⟩ := decodeSamples_spec _ _ h
    refine ⟨(rstripBytes buf).get ⟨1, by omega⟩, ?_, hc.1, hc.2, hd, ?_, hpairs⟩
    · exact List.get?_eq_get (by omega)
    · rw [hlen, List.length_drop]
  · intro buf c h1 h48 h57 hodd
    have hlt : 1 < (rstripBytes buf).length := (List.get?_eq_some.mp h1).1
    have hgt : (rstripBytes buf).get ⟨1, hlt⟩ = c := (List.get?_eq_some.mp h1).2
    simp only [decodeWaveformBlock]
    rw [dif_pos (by omega : 2 ≤ (rstripBytes buf).length)]
    by_cases hd : c - 48 + 2 ≤ (rstripBytes buf).length
    · have hcond : 48 ≤ (rstripBytes buf).get ⟨1, hlt⟩ ∧
          (rstripBytes buf).get ⟨1, hlt⟩ ≤ 57 := by rw [hgt]; exact ⟨h48, h57⟩
      rw [if_pos hcond, hgt, if_pos hd]
      exact decodeSamples_odd _ (by rw [List.length_drop]; exact hodd)
    · have hcond : 48 ≤ (rstripBytes buf).get ⟨1, hlt⟩ ∧
          (rstripBytes buf).get ⟨1, hlt⟩ ≤ 57 := by rw [hgt]; exact ⟨h48, h57⟩
      rw [if_pos hcond, hgt, if_neg hd]

/-- Witness for claim C5: the block `#0` followed by payload bytes 1, 2
decodes to the single sample 513, and the odd one-byte payload in
`#0` followed by byte 1 fails. -/
theorem waveform_block_decode_witness :
    (∃ c, (rstripBytes [35, 48, 1, 2]).get? 1 = some c ∧ 48 ≤ c ∧ c ≤ 57 ∧
      c - 48 + 2 ≤ (rstripBytes [35, 48, 1, 2]).length ∧
      2 * ([513] : List Int).length = (rstripBytes [35, 48, 1, 2]).length - (c - 48 + 2) ∧
      (∀ i b0 b1,
        ((rstripBytes [35, 48, 1, 2]).drop (c - 48 + 2)).get? (2 * i) = some b0 →
        ((rstripBytes [35, 48, 1, 2]).drop (c - 48 + 2)).get? (2 * i + 1) = some b1 →
        ([513] : List Int).get? i = some (int16LE [b0, b1]))) ∧
    decodeWaveformBlock [35, 48, 1] = none :=
  ⟨waveform_block_decode.1 [35, 48, 1, 2] [513] (by decide),
   waveform_block_decode.2.2 [35, 48, 1] 48 (by decide) (by decide) (by decide) (by decide)⟩

/-- Counterexample to claim C9: on a 131-byte buffer the decode fails
(the surfaced flag is `false`), yet the session state is not left
unchanged — `num_points` has already been overwritten (with 16843009,
the little-endian value of four `1` bytes) before the failure. -/
theorem read_preamble_partial_update :
    (read_preamble zeroPreamble (List.replicate 131 1)).snd = false ∧
    (read_preamble zeroPreamble (List.replicate 131 1)).fst ≠ zeroPreamble ∧
    (read_preamble zeroPreamble (List.replicate 131 1)).fst.num_points = 16843009 := by
  refine ⟨by decide, by decide, by decide⟩

/-- Claim C9 (amended): when the preamble decode fails the failure is
surfaced to the caller, but the session state may be partially updated:
each field whose byte range (and every earlier field's range) lies within
the buffer is overwritten with its newly decoded value, and every later
field keeps its prior value.  The decode fails exactly when the buffer is
shorter than `11 + 346` bytes. -/
theorem read_preamble_prefix_update (st : Preamble) (b : List Nat) :
    ((read_preamble st b).snd = false ↔ b.length < 11 + 346) ∧
    (read_preamble st b).fst.num_points =
      (if 11 + 120 ≤ b.length then int32LE (slice b (11 + 116) (11 + 120))
       else st.num_points) ∧
    (read_preamble st b).fst.first_point =
      (if 11 + 136 ≤ b.length then int32LE (slice b (11 + 132) (11 + 136))
       else st.first_point) ∧
    (read_preamble st b).fst.data_interval =
      (if 11 + 140 ≤ b.length then int32LE (slice b (11 + 136) (11 + 140))
       else st.data_interval) ∧
    (read_preamble st b).fst.read_frames =
      (if 11 + 148 ≤ b.length then int32LE (slice b (11 + 144) (11 + 148))
       else st.read_frames) ∧
    (read_preamble st b).fst.sum_frames =
      (if 11 + 152 ≤ b.length then int32LE (slice b (11 + 148) (11 + 152))
       else st.sum_frames) ∧
    (read_preamble st b).fst.vertical_gain =
      (if 11 + 160 ≤ b.length then float32OfBits (leNat (slice b (11 + 156) (11 + 160)))
       else st.vertical_gain) ∧
    (read_preamble st b).fst.vertical_offset =
      (if 11 + 164 ≤ b.length then float32OfBits (leNat (slice b (11 + 160) (11 + 164)))
       else st.vertical_offset) ∧
    (read_preamble st b).fst.code_per_div =
      (if 11 + 168 ≤ b.length then float32OfBits (leNat (slice b (11 + 164) (11 + 168)))
       else st.code_per_div) ∧
    (read_preamble st b).fst.adc_bit =
      (if 11 + 174 ≤ b.length then int16LE (slice b (11 + 172) (11 + 174))
       else st.adc_bit) ∧
    (read_preamble st b).fst.sequence_frame_idx =
      (if 11 + 176 ≤ b.length then int16LE (slice b (11 + 174) (11 + 176))
       else st.sequence_frame_idx) ∧
    (read_preamble st b).fst.horizontal_interval =
      (if 11 + 180 ≤ b.length then float32OfBits (leNat (slice b (11 + 176) (11 + 180)))
       else st.horizontal_interval) ∧
    (read_preamble st b).fst.horizontal_offset =
      (if 11 + 188 ≤ b.length then float64OfBits (leNat (slice b (11 + 180) (11 + 188)))
       else st.horizontal_offset) ∧
    (read_preamble st b).fst.timebase_idx =
      (if 11 + 326 ≤ b.length then int16LE (slice b (11 + 324) (11 + 326))
       else st.timebase_idx) ∧
    (read_preamble st b).fst.vertical_coupling_idx =
      (if 11 + 328 ≤ b.length then int16LE (slice b (11 + 326) (11 + 328))
       else st.vertical_coupling_idx) ∧
    (read_preamble st b).fst.probe_attenuation =
      (if 11 + 332 ≤ b.length then float32OfBits (leNat (slice b (11 + 328) (11 + 332)))
       else st.probe_attenuation) ∧
    (read_preamble st b).fst.bw_limit =
      (if 11 + 336 ≤ b.length then int16LE (slice b (11 + 334) (11 + 336))
       else st.bw_limit) ∧
    (read_preamble st b).fst.source_channel =
      (if 11 + 346 ≤ b.length then int16LE (slice b (11 + 344) (11 + 346))
       else st.source_channel) := by
  unfold read_preamble
  dsimp only
  by_cases g1 : 11 + 120 ≤ b.length
  case neg =>
    rw [if_neg g1]
    constructor
    · first
      | exact iff_of_true rfl (by omega)
      | exact iff_of_false (by simp) (by omega)
    · refine ⟨?_, ?_, ?_, ?_, ?_, ?_, ?_, ?_, ?_, ?_, ?_, ?_, ?_, ?_, ?_, ?_, ?_⟩ <;>
        first
          | rw [if_pos (by omega)]
          | rw [if_neg (by omega)]
  rw [if_pos g1]
  by_cases g2 : 11 + 136 ≤ b.length
  case neg =>
    rw [if_neg g2]
    constructor
    · first
      | exact iff_of_true rfl (by omega)
      | exact iff_of_false (by simp) (by omega)
    · refine ⟨?_, ?_, ?_, ?_, ?_, ?_, ?_, ?_, ?_, ?_, ?_, ?_, ?_, ?_, ?_, ?_, ?_⟩ <;>
        first
          | rw [if_pos (by omega)]
          | rw [if_neg (by omega)]
  rw [if_pos g2]
  by_cases g3 : 11 + 140 ≤ b.length
  case neg =>
    rw [if_neg g3]
    constructor
    · first
      | exact iff_of_true rfl (by omega)
      | exact iff_of_false (by simp) (by omega)
    · refine ⟨?_, ?_, ?_, ?_, ?_, ?_, ?_, ?_, ?_, ?_, ?_, ?_, ?_, ?_, ?_, ?_, ?_⟩ <;>
        first
          | rw [if_pos (by omega)]
          | rw [if_neg (by omega)]
  rw [if_pos g3]
  by_cases g4 : 11 + 148 ≤ b.length
  case neg =>
    rw [if_neg g4]
    constructor
    · first
      | exact iff_of_true rfl (by omega)
      | exact iff_of_false (by simp) (by omega)
    · refine ⟨?_, ?_, ?_, ?_, ?_, ?_, ?_, ?_, ?_, ?_, ?_, ?_, ?_, ?_, ?_, ?_, ?_⟩ <;>
        first
          | rw [if_pos (by omega)]
          | rw [if_neg (by omega)]
  rw [if_pos g4]
  by_cases g5 : 11 + 152 ≤ b.length
  case neg =>
    rw [if_neg g5]
    constructor
    · first
      | exact iff_of_true rfl (by omega)
      | exact iff_of_false (by simp) (by omega)
    · refine ⟨?_, ?_, ?_, ?_, ?_, ?_, ?_, ?_, ?_, ?_, ?_, ?_, ?_, ?_, ?_, ?_, ?_⟩ <;>
        first
          | rw [if_pos (by omega)]
          | rw [if_neg (by omega)]
  rw [if_pos g5]
  by_cases g6 : 11 + 160 ≤ b.length
  case neg =>
    rw [if_neg g6]
    constructor
    · first
      | exact iff_of_true rfl (by omega)
      | exact iff_of_false (by simp) (by omega)
    · refine ⟨?_, ?_, ?_, ?_, ?_, ?_, ?_, ?_, ?_, ?_, ?_, ?_, ?_, ?_, ?_, ?_, ?_⟩ <;>
        first
          | rw [if_pos (by omega)]
          | rw [if_neg (by omega)]
  rw [if_pos g6]
  by_cases g7 : 11 + 164 ≤ b.length
  case neg =>
    rw [if_neg g7]
    constructor
    · first
      | exact iff_of_true rfl (by omega)
      | exact iff_of_false (by simp) (by omega)
    · refine ⟨?_, ?_, ?_, ?_, ?_, ?_, ?_, ?_, ?_, ?_, ?_, ?_, ?_, ?_, ?_, ?_, ?_⟩ <;>
        first
          | rw [if_pos (by omega)]
          | rw [if_neg (by omega)]
  rw [if_pos g7]
  by_cases g8 : 11 + 168 ≤ b.length
  case neg =>
    rw [if_neg g8]
    constructor
    · first
      | exact iff_of_true rfl (by omega)
      | exact iff_of_false (by simp) (by omega)
    · refine ⟨?_, ?_, ?_, ?_, ?_, ?_, ?_, ?_, ?_, ?_, ?_, ?_, ?_, ?_, ?_, ?_, ?_⟩ <;>
        first
          | rw [if_pos (by omega)]
          | rw [if_neg (by omega)]
  rw [if_pos g8]
  by_cases g9 : 11 + 174 ≤ b.length
  case neg =>
    rw [if_neg g9]
    constructor
    · first
      | exact iff_of_true rfl (by omega)
      | exact iff_of_false (by simp) (by omega)
    · refine ⟨?_, ?_, ?_, ?_, ?_, ?_, ?_, ?_, ?_, ?_, ?_, ?_, ?_, ?_, ?_, ?_, ?_⟩ <;>
        first
          | rw [if_pos (by omega)]
          | rw [if_neg (by omega)]
  rw [if_pos g9]
  by_cases g10 : 11 + 176 ≤ b.length
  case neg =>
    rw [if_neg g10]
    constructor
    · first
      | exact iff_of_true rfl (by omega)
      | exact iff_of_false (by simp) (by omega)
    · refine ⟨?_, ?_, ?_, ?_, ?_, ?_, ?_, ?_, ?_, ?_, ?_, ?_, ?_, ?_, ?_, ?_, ?_⟩ <;>
        first
          | rw [if_pos (by omega)]
          | rw [if_neg (by omega)]
  rw [if_pos g10]
  by_cases g11 : 11 + 180 ≤ b.length
  case neg =>
    rw [if_neg g11]
    constructor
    · first
      | exact iff_of_true rfl (by omega)
      | exact iff_of_false (by simp) (by omega)
    · refine ⟨?_, ?_, ?_, ?_, ?_, ?_, ?_, ?_, ?_, ?_, ?_, ?_, ?_, ?_, ?_, ?_, ?_⟩ <;>
        first
          | rw [if_pos (by omega)]
          | rw [if_neg (by omega)]
  rw [if_pos g11]
  by_cases g12 : 11 + 188 ≤ b.length
  case neg =>
    rw [if_neg g12]
    constructor
    · first
      | exact iff_of_true rfl (by omega)
      | exact iff_of_false (by simp) (by omega)
    · refine ⟨?_, ?_, ?_, ?_, ?_, ?_, ?_, ?_, ?_, ?_, ?_, ?_, ?_, ?_, ?_, ?_, ?_⟩ <;>
        first
          | rw [if_pos (by omega)]
          | rw [if_neg (by omega)]
  rw [if_pos g12]
  by_cases g13 : 11 + 326 ≤ b.length
  case neg =>
    rw [if_neg g13]
    constructor
    · first
      | exact iff_of_true rfl (by omega)
      | exact iff_of_false (by simp) (by omega)
    · refine ⟨?_, ?_, ?_, ?_, ?_, ?_, ?_, ?_, ?_, ?_, ?_, ?_, ?_, ?_, ?_, ?_, ?_⟩ <;>
        first
          | rw [if_pos (by omega)]
          | rw [if_neg (by omega)]
  rw [if_pos g13]
  by_cases g14 : 11 + 328 ≤ b.length
  case neg =>
    rw [if_neg g14]
    constructor
    · first
      | exact iff_of_true rfl (by omega)
      | exact iff_of_false (by simp) (by omega)
    · refine ⟨?_, ?_, ?_, ?_, ?_, ?_, ?_, ?_, ?_, ?_, ?_, ?_, ?_, ?_, ?_, ?_, ?_⟩ <;>
        first
          | rw [if_pos (by omega)]
          | rw [if_neg (by omega)]
  rw [if_pos g14]
  by_cases g15 : 11 + 332 ≤ b.length
  case neg =>
    rw [if_neg g15]
    constructor
    · first
      | exact iff_of_true rfl (by omega)
      | exact iff_of_false (by simp) (by omega)
    · refine ⟨?_, ?_, ?_, ?_, ?_, ?_, ?_, ?_, ?_, ?_, ?_, ?_, ?_, ?_, ?_, ?_, ?_⟩ <;>
        first
          | rw [if_pos (by omega)]
          | rw [if_neg (by omega)]
  rw [if_pos g15]
  by_cases g16 : 11 + 336 ≤ b.length
  case neg =>
    rw [if_neg g16]
    constructor
    · first
      | exact iff_of_true rfl (by omega)
      | exact iff_of_false (by simp) (by omega)
    · refine ⟨?_, ?_, ?_, ?_, ?_, ?_, ?_, ?_, ?_, ?_, ?_, ?_, ?_, ?_, ?_, ?_, ?_⟩ <;>
        first
          | rw [if_pos (by omega)]
          | rw [if_neg (by omega)]
  rw [if_pos g16]
  by_cases g17 : 11 + 346 ≤ b.length
  case neg =>
    rw [if_neg g17]
    constructor
    · first
      | exact iff_of_true rfl (by omega)
      | exact iff_of_false (by simp) (by omega)
    · refine ⟨?_, ?_, ?_, ?_, ?_, ?_, ?_, ?_, ?_, ?_, ?_, ?_, ?_, ?_, ?_, ?_, ?_⟩ <;>
        first
          | rw [if_pos (by omega)]
          | rw [if_neg (by omega)]
  rw [if_pos g17]
  constructor
  · first
    | exact iff_of_true rfl (by omega)
    | exact iff_of_false (by simp) (by omega)
  · refine ⟨?_, ?_, ?_, ?_, ?_, ?_, ?_, ?_, ?_, ?_, ?_, ?_, ?_, ?_, ?_, ?_, ?_⟩ <;>
      first
        | rw [if_pos (by omega)]
        | rw [if_neg (by omega)]

/-- Elimination principle for a successful `get_waveform_data` call: the
result comes from decoding the preamble bytes of that call, looking up
the timebase, decoding the sample block, extracting the five finite float
parameters and scaling. -/
theorem get_waveform_snd_elim (st : Preamble) (pre raw : List Nat) (t v : List ℚ)
    (h : (get_waveform_data st pre raw).snd = some (t, v)) :
    ∃ p raws tb vg voff cpd hint hoff,
      decodePreamble pre = some p ∧
      decodeWaveformBlock raw = some raws ∧
      lookupTimebase p.timebase_idx = some tb ∧
      p.vertical_gain.toQOpt = some vg ∧
      p.vertical_offset.toQOpt = some voff ∧
      p.code_per_div.toQOpt = some cpd ∧
      p.horizontal_interval.toQOpt = some hint ∧
      p.horizontal_offset.toQOpt = some hoff ∧
      scale vg cpd voff hoff tb hint p.num_points raws = some (t, v) := by
  simp only [get_waveform_data] at h
  cases hp : decodePreamble pre with
  | none => simp only [hp] at h; exact Option.noConfusion h
  | some p =>
  simp only [hp] at h
  cases htb : lookupTimebase p.timebase_idx with
  | none => simp only [htb] at h; exact Option.noConfusion h
  | some tb =>
  simp only [htb] at h
  cases hraw : decodeWaveformBlock raw with
  | none => simp only [hraw] at h; exact Option.noConfusion h
  | some raws =>
  simp only [hraw] at h
  cases hvg : p.vertical_gain.toQOpt with
  | none => simp only [hvg] at h; exact Option.noConfusion h
  | some vg =>
  simp only [hvg] at h
  cases hvoff : p.vertical_offset.toQOpt with
  | none => simp only [hvoff] at h; exact Option.noConfusion h
  | some voff =>
  simp only [hvoff] at h
  cases hcpd : p.code_per_div.toQOpt with
  | none => simp only [hcpd] at h; exact Option.noConfusion h
  | some cpd =>
  simp only [hcpd] at h
  cases hhint : p.horizontal_interval.toQOpt with
  | none => simp only [hhint] at h; exact Option.noConfusion h
  | some hint =>
  simp only [hhint] at h
  cases hhoff : p.horizontal_offset.toQOpt with
  | none => simp only [hhoff] at h; exact Option.noConfusion h
  | some hoff =>
  simp only [hhoff] at h
  exact ⟨p, raws, tb, vg, voff, cpd, hint, hoff, rfl, rfl, htb, hvg, hvoff, hcpd, hhint, hhoff, h⟩

/-- Claim C3: a successful fetch produces a time axis with exactly the
preamble's declared `num_points` entries (independent of the raw block),
with `time[i] = horizontal_offset - 0.5 * 10 * timebase +
i * horizontal_interval` where the timebase is looked up from the
preamble's `timebase_idx`; the claim's concrete example holds exactly. -/
theorem time_axis (st : Preamble) (pre raw : List Nat) (t v : List ℚ)
    (h : (get_waveform_data st pre raw).snd = some (t, v)) :
    (∃ p tb hoff hint, decodePreamble pre = some p ∧
      lookupTimebase p.timebase_idx = some tb ∧
      p.horizontal_offset.toQOpt = some hoff ∧
      p.horizontal_interval.toQOpt = some hint ∧
      t.length = p.num_points.toNat ∧
      ∀ i : ℕ, i < p.num_points.toNat →
        t.get? i = some (hoff - (1 / 2) * 10 * tb + (i : ℚ) * hint)) ∧
    timeData 0 (1 / 10 ^ 6) (2 / 10 ^ 9) 3 =
      [-(5 / 10 ^ 6), -(5 / 10 ^ 6) + 2 / 10 ^ 9, -(5 / 10 ^ 6) + 4 / 10 ^ 9] := by
  constructor
  · obtain ⟨p, raws, tb, vg, voff, cpd, hint, hoff, hp, hraw, htb, hvg, hvoff, hcpd,
      hhint, hhoff, hs⟩ := get_waveform_snd_elim st pre raw t v h
    unfold scale at hs
    split_ifs at hs
    injection hs with hs
    injection hs with ht hv
    refine ⟨p, tb, hoff, hint, hp, htb, hhoff, hhint, ?_, ?_⟩
    · rw [← ht]
      simp [timeData]
    · intro i hi
      rw [← ht]
      simp only [timeData, List.get?_map, List.get?_range hi]
      rfl
  · have hr : List.range (Int.toNat 3) = [0, 1, 2] := rfl
    simp only [timeData, hr, List.map_cons, List.map_nil]
    norm_num

/-- Witness for claim C3: the demo preamble buffer declares zero points,
so the successful fetch yields an empty time axis. -/
theorem time_axis_witness :
    (∃ p tb hoff hint, decodePreamble demoPreBuf = some p ∧
      lookupTimebase p.timebase_idx = some tb ∧
      p.horizontal_offset.toQOpt = some hoff ∧
      p.horizontal_interval.toQOpt = some hint ∧
      ([] : List ℚ).length = p.num_points.toNat ∧
      ∀ i : ℕ, i < p.num_points.toNat →
        ([] : List ℚ).get? i = some (hoff - (1 / 2) * 10 * tb + (i : ℚ) * hint)) ∧
    timeData 0 (1 / 10 ^ 6) (2 / 10 ^ 9) 3 =
      [-(5 / 10 ^ 6), -(5 / 10 ^ 6) + 2 / 10 ^ 9, -(5 / 10 ^ 6) + 4 / 10 ^ 9] :=
  time_axis zeroPreamble demoPreBuf demoRawBuf [] [] (by decide)

/-- Claim C10: a fetch that returns a decoded waveform leaves the
session's cached preamble fields unchanged, its result is independent of
the cached state (so the cached preamble is never used for scaling), and
the scaling parameters all come from the preamble decoded from the bytes
requested in that same call. -/
theorem fetch_uses_fresh_preamble (st st2 : Preamble) (pre raw : List Nat)
    (t v : List ℚ)
    (h : (get_waveform_data st pre raw).snd = some (t, v)) :
    (get_waveform_data st pre raw).fst = st ∧
    (get_waveform_data st pre raw).snd = (get_waveform_data st2 pre raw).snd ∧
    ∃ p raws tb vg voff cpd hint hoff,
      decodePreamble pre = some p ∧
      decodeWaveformBlock raw = some raws ∧
      lookupTimebase p.timebase_idx = some tb ∧
      p.vertical_gain.toQOpt = some vg ∧
      p.vertical_offset.toQOpt = some voff ∧
      p.code_per_div.toQOpt = some cpd ∧
      p.horizontal_interval.toQOpt = some hint ∧
      p.horizontal_offset.toQOpt = some hoff ∧
      scale vg cpd voff hoff tb hint p.num_points raws = some (t, v) :=
  ⟨rfl, rfl, get_waveform_snd_elim st pre raw t v h⟩

/-- Witness for claim C10 on the demo buffers, with two different cached
states on the two sides of the independence equation. -/
theorem fetch_uses_fresh_preamble_witness :
    (get_waveform_data zeroPreamble demoPreBuf demoRawBuf).fst = zeroPreamble ∧
    (get_waveform_data zeroPreamble demoPreBuf demoRawBuf).snd =
      (get_waveform_data demoPre demoPreBuf demoRawBuf).snd ∧
    ∃ p raws tb vg voff cpd hint hoff,
      decodePreamble demoPreBuf = some p ∧
      decodeWaveformBlock demoRawBuf = some raws ∧
      lookupTimebase p.timebase_idx = some tb ∧
      p.vertical_gain.toQOpt = some vg ∧
      p.vertical_offset.toQOpt = some voff ∧
      p.code_per_div.toQOpt = some cpd ∧
      p.horizontal_interval.toQOpt = some hint ∧
      p.horizontal_offset.toQOpt = some hoff ∧
      scale vg cpd voff hoff tb hint p.num_points raws = some ([], []) :=
  fetch_uses_fresh_preamble zeroPreamble demoPre demoPreBuf demoRawBuf [] [] (by decide)

end SDS814XHD
